import Mathlib

/-!
Verification of the fetch/dedup/pagination core of the YouTube Super Chat
monitor (src/ytscm/monitor.py), as a shallow embedding.

Item identifiers are opaque strings in the source; here they are a type `α`
with decidable equality.  The sqlite table `superchats (id TEXT)` carries no
uniqueness constraint, so the durable store is modelled as a `List α`
(a multiset of rows): row multiplicity matters because `_is_fetched`
compares `count(*)` with the literal `1`.

The remote API is an external collaborator.  A call
`youtube.superChatEvents().list(...).execute()` either raises (transport
failure) or returns a response holding an item list and, possibly, a
`nextPageToken` field.  Successive requests made by one cycle are modelled
by indexing the feed with the number of requests already made (tokens are
opaque and only threaded from one request to the next).
-/

section Core

variable {α : Type} [DecidableEq α]

/-- One response of `youtube.superChatEvents().list(...)`: the page's items
(reduced to their identifiers) and the `nextPageToken` field, which may be
absent (`none`).  Dict access `response["nextPageToken"]` raises KeyError
when the field is absent. -/
structure Response (α : Type) where
  items : List α
  nextPageToken : Option String
deriving DecidableEq, Repr

/-- `YTSCMonitor._is_fetched` (monitor.py lines 85-94): runs
`SELECT count(*) FROM superchats WHERE id = ?` on the open connection and
returns `fetched == 1`.  Note the comparison is with exactly 1, not `>= 1`. -/
def is_fetched (db : List α) (id : α) : Bool :=
  db.count id == 1

/-- The identifiers of `items` that are not yet seen in `db`, in feed order. -/
def newOf (db : List α) (items : List α) : List α :=
  items.filter (fun i => !(is_fetched db i))

/-- Result of the `for super_chat_json in response['items']` loop
(monitor.py lines 122-129) on one page: `buffer` is the per-page id buffer
(the id is appended before the handler call), `okIds` the ids whose handler
call returned normally (in order), `finished` the final value of
`is_finished`, and `failed` the id on which the handler raised, if any
(the loop, and with it the whole cycle, aborts there). -/
structure PageRes (α : Type) where
  buffer : List α
  okIds : List α
  finished : Bool
  failed : Option α
deriving DecidableEq, Repr

/-- The per-page item loop of `fetch` (monitor.py lines 122-129): an id that
`_is_fetched` reports as seen is skipped and sets `is_finished`; otherwise
the id is appended to `buffer` and `self.__update(event)` is called.
`update i = false` models the handler raising on `i`, which aborts the loop
(there is no try/except in the source). -/
def processItems (update : α → Bool) (db : List α) : List α → Bool → PageRes α
  | [], fin => ⟨[], [], fin, none⟩
  | i :: rest, fin =>
    if is_fetched db i then
      processItems update db rest true
    else if update i then
      let r := processItems update db rest fin
      ⟨i :: r.buffer, i :: r.okIds, r.finished, r.failed⟩
    else
      ⟨[i], [], fin, some i⟩

/-- The exceptions a fetch cycle can raise: the API request failing
(transport), `response["nextPageToken"]` missing (KeyError), or the handler
raising on a given id. -/
inductive FetchErr (α : Type) where
  | transport
  | keyError
  | handlerErr (id : α)
deriving DecidableEq, Repr

/-- Outcome of `YTSCMonitor.fetch`.  `ok db delivered requests`: normal
return, with the committed store, the ids handed to the handler that
returned normally (in feed order), and the number of page requests made.
`err e db delivered requests`: the exception `e` propagates out of `fetch`;
the `with sqlite3.connect(...)` block rolls the open transaction back on
exception (the only commit is at the end of the block), so `db` is the store
exactly as it was on entry.  `out`: fuel exhausted — the source's
`while True` loop is still running after `requests` pages. -/
inductive FetchOutcome (α : Type) where
  | ok (db : List α) (delivered : List α) (requests : Nat)
  | err (e : FetchErr α) (db : List α) (delivered : List α) (requests : Nat)
  | out
deriving DecidableEq, Repr

/-- The `while True` loop of `YTSCMonitor.fetch` (monitor.py lines 105-138),
with `fuel` bounding the number of iterations we unfold.  Per iteration, in
source order: execute the request (raises on transport failure), read
`response["nextPageToken"]` (raises KeyError when absent), break when the
item list is empty, run the item loop (a raising handler propagates), insert
the page's `buffer` into the connection (visible to later `_is_fetched`
queries of the same cycle, uncommitted), and break when `is_finished`.
`dbOrig` is the store at cycle entry, restored on any exception (rollback);
`db` is the connection's current view; `delivered` and `reqIdx` accumulate
handled ids and performed requests. -/
def fetchAux (feed : Nat → Except Unit (Response α)) (update : α → Bool)
    (dbOrig : List α) : Nat → List α → List α → Nat → FetchOutcome α
  | 0, _, _, _ => .out
  | fuel + 1, db, delivered, reqIdx =>
    match feed reqIdx with
    | .error _ => .err .transport dbOrig delivered (reqIdx + 1)
    | .ok resp =>
      match resp.nextPageToken with
      | none => .err .keyError dbOrig delivered (reqIdx + 1)
      | some _ =>
        match resp.items with
        | [] => .ok db delivered (reqIdx + 1)
        | i0 :: rest0 =>
          let r := processItems update db (i0 :: rest0) false
          match r.failed with
          | some x => .err (.handlerErr x) dbOrig (delivered ++ r.okIds) (reqIdx + 1)
          | none =>
            match r.finished with
            | true => .ok (db ++ r.buffer) (delivered ++ r.okIds) (reqIdx + 1)
            | false =>
              fetchAux feed update dbOrig fuel (db ++ r.buffer)
                (delivered ++ r.okIds) (reqIdx + 1)

/-- `YTSCMonitor.fetch` (monitor.py lines 96-139) on a monitor whose
progress database holds `db` and whose update function is `update`. -/
def fetch (feed : Nat → Except Unit (Response α)) (update : α → Bool)
    (db : List α) (fuel : Nat) : FetchOutcome α :=
  fetchAux feed update db fuel db [] 0

/-- Exceptions observable from `YTSCMonitor` methods above the cycle core:
reading the never-assigned attribute `self.__progress_db` (AttributeError),
an exception escaping the cycle (transport / KeyError / handler —
calling a `None` update function raises TypeError, modelled below as a
handler that raises on every item), or running out of fuel. -/
inductive PyErr (α : Type) where
  | attributeError
  | cycleErr (e : FetchErr α)
  | fuelOut
deriving DecidableEq, Repr

/-- The attribute state of a `YTSCMonitor` object relevant to `fetch`:
`update` is `self.__update` (class default `None`), `progressDb` is
`self.__progress_db` — `none` models the attribute not existing yet (it is
not a class attribute and is only assigned near the end of `__init__`);
`some db` models it holding a path whose store content is `db`. -/
structure MonitorAttrs (α : Type) where
  update : Option (α → Bool)
  progressDb : Option (List α)

/-- `self.fetch()` as dispatched on an attribute state: line 102
`sqlite3.connect(self.__progress_db)` raises AttributeError when
`__progress_db` was never assigned; otherwise the cycle core runs, with a
`None` update function modelled as a handler raising on every item
(calling `None` raises TypeError). -/
def monitorFetch (m : MonitorAttrs α) (feed : Nat → Except Unit (Response α))
    (fuel : Nat) : Except (PyErr α) (List α × List α × Nat) :=
  match m.progressDb with
  | none => .error .attributeError
  | some db =>
    match fetch feed (fun i => match m.update with | some u => u i | none => false) db fuel with
    | .ok db' d r => .ok (db', d, r)
    | .err e _ _ _ => .error (.cycleErr e)
    | .out => .error .fuelOut

/-- `YTSCMonitor.__init__` (monitor.py lines 44-83) after the external OAuth
flow and client build succeed.  The object starts from the class attribute
defaults (`__update = None`, `__progress_db` nonexistent); when `init` is
true, `self.fetch()` runs at line 74, before `self.__update` (line 77) and
`self.__progress_db` (line 80) are assigned; any exception it raises
propagates out of the constructor.  On the non-`init` path the attributes
are assigned and `CREATE TABLE IF NOT EXISTS` leaves an existing store
`progress_db` unchanged. -/
def monitorInit (feed : Nat → Except Unit (Response α)) (progress_db : List α)
    (update_function : Option (α → Bool)) (init : Bool) (fuel : Nat) :
    Except (PyErr α) (MonitorAttrs α) :=
  let m0 : MonitorAttrs α := ⟨none, none⟩
  if init then
    match monitorFetch m0 feed fuel with
    | .error e => .error e
    | .ok _ => .ok ⟨update_function, some progress_db⟩
  else
    .ok ⟨update_function, some progress_db⟩

end Core

section Scheduler

/-- The observable state of one `__AutoFetchTimer` object and its chain of
`threading.Timer` threads: the two flags stored on the object
(`_should_continue`, `is_running`) together with how many scheduled,
not-yet-fired `Timer` threads exist for it (`pending`) and how many
executions of its `target()` call are currently in flight (`running`).
The two counters are what the flags are meant to track; keeping them as
natural numbers lets us prove, rather than assume, that they never
exceed one for a chain started once. -/
structure TimerState where
  shouldContinue : Bool
  isRunning : Bool
  pending : Nat
  running : Nat
deriving DecidableEq, Repr

/-- `__AutoFetchTimer.__init__` (monitor.py lines 164-169): both flags
false, no thread scheduled, nothing running. -/
def timerNew : TimerState := ⟨false, false, 0, 0⟩

/-- `__AutoFetchTimer._start_timer` (lines 177-180): if `_should_continue`,
construct and start a `Timer(self.seconds, self._handle_target)` — one more
pending scheduled thread. -/
def timerStartTimer (t : TimerState) : TimerState :=
  if t.shouldContinue then { t with pending := t.pending + 1 } else t

/-- `__AutoFetchTimer.start` (lines 182-185): guarded by
`not self._should_continue and not self.is_running`; sets
`_should_continue` and calls `_start_timer`. -/
def timerStart (t : TimerState) : TimerState :=
  if !t.shouldContinue && !t.isRunning then
    timerStartTimer { t with shouldContinue := true }
  else
    t

/-- The timer object right after `start()` on a fresh instance, which is
what `YTSCMonitor.start` produces. -/
def startedTimer : TimerState := timerStart timerNew

/-- One observable step of a timer chain (monitor.py lines 171-180):
`fire` — a pending `Timer` expires and enters `_handle_target`, which sets
`is_running = True` and calls `self.target()`; `finish` — a running
`target()` returns, `_handle_target` sets `is_running = False` and then
calls `_start_timer`, scheduling the next tick only if `_should_continue`
still holds.  The next tick is thus scheduled only after the current
`fetch` has fully returned. -/
inductive TStep : TimerState → TimerState → Prop where
  | fire (t : TimerState) (h : 0 < t.pending) :
      TStep t { t with pending := t.pending - 1, running := t.running + 1, isRunning := true }
  | finish (t : TimerState) (h : 0 < t.running) :
      TStep t (timerStartTimer { t with running := t.running - 1, isRunning := false })

/-- States of the single chain created by one `start(interval)` call. -/
inductive TReach : TimerState → Prop where
  | init : TReach startedTimer
  | step {s s' : TimerState} : TReach s → TStep s s' → TReach s'

/-- The timer-chain state of a `YTSCMonitor`: every `__AutoFetchTimer`
object that was ever created and started through `YTSCMonitor.start`
(the monitor's `__autofetch_timer` field points at the last one; dropping
the reference to an earlier one does not stop its chain, since each pending
`threading.Timer` keeps its callback alive). -/
structure MonitorSched where
  timers : List TimerState
deriving DecidableEq, Repr

/-- A monitor before any `start` call: `__autofetch_timer = None`. -/
def schedInit : MonitorSched := ⟨[]⟩

/-- `YTSCMonitor.start` (monitor.py lines 141-149): unconditionally
constructs a fresh `__AutoFetchTimer` and calls its `start()`, overwriting
`self.__autofetch_timer`; the previous chain, if any, is not cancelled. -/
def monitorStart (s : MonitorSched) : MonitorSched :=
  ⟨s.timers ++ [timerStart timerNew]⟩

end Scheduler

section Scenarios

/-- A handler that returns normally on every item. -/
def updAll : Nat → Bool := fun _ => true

/-- A handler that raises exactly on item `1`. -/
def updFail1 : Nat → Bool := fun i => !(i == 1)

/-- Feed whose first page is `[0, 1, 2]`, followed by empty pages. -/
def feedPage012 : Nat → Except Unit (Response Nat) :=
  fun k => if k = 0 then .ok ⟨[0, 1, 2], some "t"⟩ else .ok ⟨[], some "t"⟩

/-- Feed whose first page is `[0, 1, 2, 3]`, followed by empty pages. -/
def feedPage0123 : Nat → Except Unit (Response Nat) :=
  fun k => if k = 0 then .ok ⟨[0, 1, 2, 3], some "t"⟩ else .ok ⟨[], some "t"⟩

/-- Feed whose first page is `[5]`, followed by empty pages. -/
def feedPage5 : Nat → Except Unit (Response Nat) :=
  fun k => if k = 0 then .ok ⟨[5], some "t"⟩ else .ok ⟨[], some "t"⟩

/-- Feed whose every response is an empty page carrying a continuation
token. -/
def feedEmptyTok : Nat → Except Unit (Response Nat) :=
  fun _ => .ok ⟨[], some "t"⟩

/-- Feed whose every response is an empty page with no `nextPageToken`
field (a drained feed whose last page omits the token). -/
def feedEmptyNoTok : Nat → Except Unit (Response Nat) :=
  fun _ => .ok ⟨[], none⟩

/-- Feed that serves one good page `[0]` and then fails at the transport
level on the second request. -/
def feedThenFail : Nat → Except Unit (Response Nat) :=
  fun k => if k = 0 then .ok ⟨[0], some "t"⟩ else .error ()

/-- Feed whose first page repeats the same identifier twice (`[0, 0]`),
followed by empty pages. -/
def feedDup : Nat → Except Unit (Response Nat) :=
  fun k => if k = 0 then .ok ⟨[0, 0], some "t"⟩ else .ok ⟨[], some "t"⟩

end Scenarios

section CoreLemmas

variable {α : Type} [DecidableEq α]

theorem processItems_all_ok (update : α → Bool) (db : List α) (items : List α)
    (hupd : ∀ i ∈ items, update i = true) (fin : Bool) :
    processItems update db items fin =
      ⟨newOf db items, newOf db items,
        fin || items.any (fun i => is_fetched db i), none⟩ := by
  induction items generalizing fin with
  | nil => simp [processItems, newOf]
  | cons a rest ih =>
    have ha : update a = true := hupd a (List.mem_cons_self a rest)
    have hrest : ∀ i ∈ rest, update i = true := fun i hi => hupd i (List.mem_cons_of_mem a hi)
    by_cases hseen : is_fetched db a = true
    · rw [processItems, if_pos hseen, ih hrest]
      simp [newOf, hseen, List.any_cons]
    · rw [processItems, if_neg hseen, if_pos ha, ih hrest]
      simp only [Bool.not_eq_true] at hseen
      simp [newOf, hseen, List.any_cons]

theorem processItems_all_seen (update : α → Bool) (db : List α) (items : List α)
    (hseen : ∀ i ∈ items, is_fetched db i = true) (fin : Bool) :
    processItems update db items fin = ⟨[], [], fin || !items.isEmpty, none⟩ := by
  induction items generalizing fin with
  | nil => simp [processItems]
  | cons a rest ih =>
    have ha : is_fetched db a = true := hseen a (List.mem_cons_self a rest)
    have hrest : ∀ i ∈ rest, is_fetched db i = true :=
      fun i hi => hseen i (List.mem_cons_of_mem a hi)
    rw [processItems, if_pos ha, ih hrest]
    simp

theorem processItems_okIds (update : α → Bool) (db : List α) (items : List α) :
    ∀ (fin : Bool) (i : α), i ∈ (processItems update db items fin).okIds → update i = true := by
  induction items with
  | nil => intro fin i hi; simp [processItems] at hi
  | cons a rest ih =>
    intro fin i hi
    by_cases hseen : is_fetched db a = true
    · rw [processItems, if_pos hseen] at hi
      exact ih true i hi
    · by_cases ha : update a = true
      · rw [processItems, if_neg hseen, if_pos ha] at hi
        simp only [List.mem_cons] at hi
        rcases hi with rfl | hi
        · exact ha
        · exact ih fin i hi
      · rw [processItems, if_neg hseen, if_neg ha] at hi
        simp at hi

theorem processItems_failed (update : α → Bool) (db : List α) (items : List α) :
    ∀ (fin : Bool) (x : α),
      (processItems update db items fin).failed = some x → update x = false := by
  induction items with
  | nil => intro fin x hx; simp [processItems] at hx
  | cons a rest ih =>
    intro fin x hx
    by_cases hseen : is_fetched db a = true
    · rw [processItems, if_pos hseen] at hx
      exact ih true x hx
    · by_cases ha : update a = true
      · rw [processItems, if_neg hseen, if_pos ha] at hx
        exact ih fin x hx
      · rw [processItems, if_neg hseen, if_neg ha] at hx
        simp only [Option.some.injEq] at hx
        subst hx
        simpa using ha

theorem processItems_buffer_eq_okIds (update : α → Bool) (db : List α) (items : List α) :
    ∀ (fin : Bool), (processItems update db items fin).failed = none →
      (processItems update db items fin).buffer = (processItems update db items fin).okIds := by
  induction items with
  | nil => intro fin _; simp [processItems]
  | cons a rest ih =>
    intro fin hnone
    by_cases hseen : is_fetched db a = true
    · rw [processItems, if_pos hseen] at hnone ⊢
      exact ih true hnone
    · by_cases ha : update a = true
      · rw [processItems, if_neg hseen, if_pos ha] at hnone ⊢
        simpa using ih fin hnone
      · rw [processItems, if_neg hseen, if_neg ha] at hnone
        simp at hnone

theorem fetchAux_empty_stop (feed : Nat → Except Unit (Response α)) (update : α → Bool)
    (dbOrig db delivered : List α) (reqIdx fuel : Nat) (t : String)
    (hfeed : feed reqIdx = .ok ⟨[], some t⟩) :
    fetchAux feed update dbOrig (fuel + 1) db delivered reqIdx =
      .ok db delivered (reqIdx + 1) := by
  simp [fetchAux, hfeed]

theorem fetchAux_keyError (feed : Nat → Except Unit (Response α)) (update : α → Bool)
    (dbOrig db delivered : List α) (reqIdx fuel : Nat) (items : List α)
    (hfeed : feed reqIdx = .ok ⟨items, none⟩) :
    fetchAux feed update dbOrig (fuel + 1) db delivered reqIdx =
      .err .keyError dbOrig delivered (reqIdx + 1) := by
  simp [fetchAux, hfeed]

theorem fetchAux_seen_stop (feed : Nat → Except Unit (Response α)) (update : α → Bool)
    (dbOrig db delivered : List α) (reqIdx fuel : Nat) (items : List α) (t : String)
    (hfeed : feed reqIdx = .ok ⟨items, some t⟩)
    (hupd : ∀ i ∈ items, update i = true)
    (hseen : ∃ i ∈ items, is_fetched db i = true) :
    fetchAux feed update dbOrig (fuel + 1) db delivered reqIdx =
      .ok (db ++ newOf db items) (delivered ++ newOf db items) (reqIdx + 1) := by
  obtain ⟨a, ha, hfa⟩ := hseen
  have hany : items.any (fun i => is_fetched db i) = true :=
    List.any_eq_true.mpr ⟨a, ha, hfa⟩
  cases items with
  | nil => simp at ha
  | cons i0 rest0 =>
    simp [fetchAux, hfeed, processItems_all_ok update db (i0 :: rest0) hupd, hany]

theorem fetchAux_clean_step (feed : Nat → Except Unit (Response α)) (update : α → Bool)
    (dbOrig db delivered : List α) (reqIdx fuel : Nat) (items : List α) (t : String)
    (hfeed : feed reqIdx = .ok ⟨items, some t⟩)
    (hne : items ≠ [])
    (hupd : ∀ i ∈ items, update i = true)
    (hnew : ∀ i ∈ items, is_fetched db i = false) :
    fetchAux feed update dbOrig (fuel + 1) db delivered reqIdx =
      fetchAux feed update dbOrig fuel (db ++ items) (delivered ++ items) (reqIdx + 1) := by
  have hany : items.any (fun i => is_fetched db i) = false := by
    simp only [List.any_eq_false]
    intro a ha
    simp [hnew a ha]
  have hfilter : newOf db items = items :=
    List.filter_eq_self.mpr (fun a ha => by simp [hnew a ha])
  cases items with
  | nil => exact absurd rfl hne
  | cons i0 rest0 =>
    simp [fetchAux, hfeed, processItems_all_ok update db (i0 :: rest0) hupd, hany, hfilter]

theorem fetchAux_err_db (feed : Nat → Except Unit (Response α)) (update : α → Bool)
    (dbOrig : List α) :
    ∀ (fuel : Nat) (db delivered : List α) (reqIdx : Nat) (e : FetchErr α)
      (db' d : List α) (r : Nat),
      fetchAux feed update dbOrig fuel db delivered reqIdx = .err e db' d r →
      db' = dbOrig := by
  intro fuel
  induction fuel with
  | zero =>
    intro db delivered reqIdx e db' d r h
    simp [fetchAux] at h
  | succ n ih =>
    intro db delivered reqIdx e db' d r h
    simp only [fetchAux] at h
    cases hf : feed reqIdx with
    | error u =>
      simp only [hf] at h
      cases h
      rfl
    | ok resp =>
      simp only [hf] at h
      cases hTok : resp.nextPageToken with
      | none =>
        simp only [hTok] at h
        cases h
        rfl
      | some t =>
        simp only [hTok] at h
        cases hItems : resp.items with
        | nil =>
          simp only [hItems] at h
          exact FetchOutcome.noConfusion h
        | cons a rest =>
          simp only [hItems] at h
          cases hfail : (processItems update db (a :: rest) false).failed with
          | some x =>
            simp only [hfail] at h
            cases h
            rfl
          | none =>
            simp only [hfail] at h
            cases hfin : (processItems update db (a :: rest) false).finished with
            | true =>
              simp only [hfin] at h
              exact FetchOutcome.noConfusion h
            | false =>
              simp only [hfin] at h
              exact ih _ _ _ _ _ _ _ h

theorem fetchAux_ok_append (feed : Nat → Except Unit (Response α)) (update : α → Bool)
    (dbOrig : List α) :
    ∀ (fuel : Nat) (db delivered : List α) (reqIdx : Nat) (db' d : List α) (r : Nat),
      fetchAux feed update dbOrig fuel db delivered reqIdx = .ok db' d r →
      ∃ newIds, db' = db ++ newIds ∧ d = delivered ++ newIds ∧
        ∀ i ∈ newIds, update i = true := by
  intro fuel
  induction fuel with
  | zero =>
    intro db delivered reqIdx db' d r h
    simp [fetchAux] at h
  | succ n ih =>
    intro db delivered reqIdx db' d r h
    simp only [fetchAux] at h
    cases hf : feed reqIdx with
    | error u =>
      simp only [hf] at h
      exact FetchOutcome.noConfusion h
    | ok resp =>
      simp only [hf] at h
      cases hTok : resp.nextPageToken with
      | none =>
        simp only [hTok] at h
        exact FetchOutcome.noConfusion h
      | some t =>
        simp only [hTok] at h
        cases hItems : resp.items with
        | nil =>
          simp only [hItems] at h
          cases h
          exact ⟨[], by simp, by simp, by simp⟩
        | cons a rest =>
          simp only [hItems] at h
          cases hfail : (processItems update db (a :: rest) false).failed with
          | some x =>
            simp only [hfail] at h
            exact FetchOutcome.noConfusion h
          | none =>
            simp only [hfail] at h
            have hbe := processItems_buffer_eq_okIds update db (a :: rest) false hfail
            cases hfin : (processItems update db (a :: rest) false).finished with
            | true =>
              simp only [hfin] at h
              cases h
              refine ⟨(processItems update db (a :: rest) false).okIds, ?_, rfl, ?_⟩
              · rw [hbe]
              · intro i hi
                exact processItems_okIds update db (a :: rest) false i hi
            | false =>
              simp only [hfin] at h
              obtain ⟨new2, h1, h2, h3⟩ := ih _ _ _ _ _ _ h
              refine ⟨(processItems update db (a :: rest) false).okIds ++ new2, ?_, ?_, ?_⟩
              · rw [h1, hbe, List.append_assoc]
              · rw [h2, List.append_assoc]
              · intro i hi
                rcases List.mem_append.mp hi with hi | hi
                · exact processItems_okIds update db (a :: rest) false i hi
                · exact h3 i hi

theorem fetchAux_handlerErr (feed : Nat → Except Unit (Response α)) (update : α → Bool)
    (dbOrig : List α) :
    ∀ (fuel : Nat) (db delivered : List α) (reqIdx : Nat) (x : α)
      (db' d : List α) (r : Nat),
      (∀ i ∈ delivered, update i = true) →
      fetchAux feed update dbOrig fuel db delivered reqIdx = .err (.handlerErr x) db' d r →
      update x = false ∧ ∀ i ∈ d, update i = true := by
  intro fuel
  induction fuel with
  | zero =>
    intro db delivered reqIdx x db' d r _ h
    simp [fetchAux] at h
  | succ n ih =>
    intro db delivered reqIdx x db' d r hdel h
    simp only [fetchAux] at h
    cases hf : feed reqIdx with
    | error u =>
      simp only [hf] at h
      cases h
    | ok resp =>
      simp only [hf] at h
      cases hTok : resp.nextPageToken with
      | none =>
        simp only [hTok] at h
        cases h
      | some t =>
        simp only [hTok] at h
        cases hItems : resp.items with
        | nil =>
          simp only [hItems] at h
          exact FetchOutcome.noConfusion h
        | cons a rest =>
          simp only [hItems] at h
          cases hfail : (processItems update db (a :: rest) false).failed with
          | some x0 =>
            simp only [hfail] at h
            cases h
            refine ⟨processItems_failed update db (a :: rest) false _ hfail, ?_⟩
            intro i hi
            rcases List.mem_append.mp hi with hi | hi
            · exact hdel i hi
            · exact processItems_okIds update db (a :: rest) false i hi
          | none =>
            simp only [hfail] at h
            cases hfin : (processItems update db (a :: rest) false).finished with
            | true =>
              simp only [hfin] at h
              exact FetchOutcome.noConfusion h
            | false =>
              simp only [hfin] at h
              refine ih _ _ _ _ _ _ _ ?_ h
              intro i hi
              rcases List.mem_append.mp hi with hi | hi
              · exact hdel i hi
              · exact processItems_okIds update db (a :: rest) false i hi

end CoreLemmas

section SchedulerLemmas

theorem timerStartTimer_running (s : TimerState) :
    (timerStartTimer s).running = s.running := by
  unfold timerStartTimer
  split <;> rfl

theorem timerStartTimer_pending (s : TimerState) :
    (timerStartTimer s).pending ≤ s.pending + 1 := by
  unfold timerStartTimer
  split <;> simp

end SchedulerLemmas

section Claims

/-- C1, counterexample.  The claim says a handler failure on one item does
not block delivery of the subsequent items of the same page.  On the feed
whose first page is `[0, 1, 2]` with a handler raising exactly on `1`, the
source delivers `0`, then the handler's exception propagates out of
`fetch` (there is no try/except around `self.__update` at monitor.py line
129): item `2`, later on the same page, is never handed to the handler
(the delivered list of the run is `[0]`), refuting the claim as stated. -/
theorem c1_counterexample :
    fetch feedPage012 updFail1 ([] : List Nat) 5 = .err (.handlerErr 1) [] [0] 1 := by
  decide

/-- C1, amended.  If the handler raises on item `x`, the exception
propagates out of `fetch` and aborts the whole cycle: the sqlite
transaction is rolled back, so the store is exactly as it was on entry (no
identifier of the cycle, `x`'s included, is persisted) and `x` was never
delivered successfully; hence the next `fetch` starts from the unchanged
store and the cycle's items, `x` included, are examined again
(at-least-once delivery).  Subsequent items of the page are, however, not
delivered in the failing cycle. -/
theorem c1_handler_abort_rolls_back {α : Type} [DecidableEq α]
    (feed : Nat → Except Unit (Response α)) (update : α → Bool) (db : List α)
    (fuel : Nat) (x : α) (db' d : List α) (r : Nat)
    (h : fetch feed update db fuel = .err (.handlerErr x) db' d r) :
    db' = db ∧ x ∉ d := by
  have h1 := fetchAux_err_db feed update db fuel db [] 0 _ _ _ _ h
  have h2 := fetchAux_handlerErr feed update db fuel db [] 0 x db' d r (by simp) h
  refine ⟨h1, fun hx => ?_⟩
  have := h2.2 x hx
  rw [h2.1] at this
  exact Bool.false_ne_true this

/-- C1 witness: the amended theorem applied to the `[0, 1, 2]` page with
the handler raising on `1`. -/
theorem c1_handler_abort_rolls_back_witness :
    ([] : List Nat) = [] ∧ (1 : Nat) ∉ ([0] : List Nat) :=
  c1_handler_abort_rolls_back feedPage012 updFail1 [] 5 1 [] [0] 1 (by decide)

/-- C2: for the single timer chain created by one `start(interval)` call,
every reachable state has at most one `fetch` cycle in flight, and never a
pending scheduled tick at the same time as a running cycle — the next tick
is scheduled (in `_handle_target`) only after the current `target()` call
has fully returned. -/
theorem c2_at_most_one_cycle_inflight (s : TimerState) (h : TReach s) :
    s.running ≤ 1 ∧ s.pending + s.running ≤ 1 := by
  induction h with
  | init => exact ⟨by decide, by decide⟩
  | @step u u' hr hs ih =>
    obtain ⟨ih1, ih2⟩ := ih
    cases hs with
    | fire hp =>
      refine ⟨?_, ?_⟩
      · show u.running + 1 ≤ 1
        omega
      · show u.pending - 1 + (u.running + 1) ≤ 1
        omega
    | finish hr' =>
      have hrun : (timerStartTimer { u with running := u.running - 1, isRunning := false }).running
          = u.running - 1 := timerStartTimer_running _
      have hpend : (timerStartTimer { u with running := u.running - 1, isRunning := false }).pending
          ≤ u.pending + 1 := timerStartTimer_pending _
      exact ⟨by omega, by omega⟩

/-- C2 witness: the invariant holds at the chain's initial state. -/
theorem c2_at_most_one_cycle_inflight_witness :
    startedTimer.running ≤ 1 ∧ startedTimer.pending + startedTimer.running ≤ 1 :=
  c2_at_most_one_cycle_inflight startedTimer TReach.init

/-- C3: on a first page that mixes seen and unseen identifiers (all handler
calls returning normally), one cycle delivers exactly the unseen
identifiers of that page, in feed order — dedup is per-identifier, not
positional — appends exactly those to the store, and returns after a single
page request (the walk does not fetch a further page). -/
theorem c3_page_boundary_completeness {α : Type} [DecidableEq α]
    (feed : Nat → Except Unit (Response α)) (update : α → Bool) (db : List α)
    (fuel : Nat) (items : List α) (t : String)
    (hfeed : feed 0 = .ok ⟨items, some t⟩)
    (hupd : ∀ i ∈ items, update i = true)
    (hseen : ∃ i ∈ items, is_fetched db i = true) :
    fetch feed update db (fuel + 1) =
      .ok (db ++ newOf db items) (newOf db items) 1 := by
  have h := fetchAux_seen_stop feed update db db [] 0 fuel items t hfeed hupd hseen
  simpa [fetch] using h

/-- C3 witness: page `[0, 1, 2, 3]` against a store holding `2` delivers
`[0, 1, 3]` (including `3`, which follows the seen identifier) in one
request. -/
theorem c3_page_boundary_completeness_witness :
    fetch feedPage0123 updAll ([2] : List Nat) 5 = .ok [2, 0, 1, 3] [0, 1, 3] 1 := by
  have h := c3_page_boundary_completeness feedPage0123 updAll [2] 4 [0, 1, 2, 3] "t"
    rfl (by decide) (by decide)
  simpa [newOf, is_fetched] using h

/-- C4 (exhibiting the code bug): `_is_fetched` returns `count(*) == 1`, so
an identifier recorded once is reported as seen, but after a duplicate
insert of the same identifier (the schema has no uniqueness constraint and
`fetch` inserts every buffered id unconditionally) the count is 2 and
membership flips back to `false`, contradicting the claim — and the
function's own docstring — that membership stays true once recorded. -/
theorem c4_duplicate_record_breaks_membership :
    is_fetched ([0] : List Nat) 0 = true ∧ is_fetched ([0, 0] : List Nat) 0 = false := by
  decide

/-- C5, counterexample.  The claim says the walk stops (returning normally,
with zero deliveries) when the continuation token is exhausted or the page
is empty.  But `token = response["nextPageToken"]` (monitor.py line 116)
runs before the empty-page check: on a drained feed whose response has no
`nextPageToken` field, `fetch` raises KeyError instead of stopping — even
though the page is empty. -/
theorem c5_counterexample :
    fetch feedEmptyNoTok updAll ([] : List Nat) 3 = .err .keyError [] [] 1 := by
  decide

/-- C5, amended: page-by-page characterisation of the walk's stop
behaviour.  Provided the response carries a continuation token: an empty
page stops the cycle normally with nothing further delivered; a page
containing a seen identifier stops the cycle after finishing that page
(delivering its unseen items); a nonempty page of entirely unseen items
(handler calls returning normally) continues the walk to the next request.
A response lacking a continuation token raises KeyError instead of
stopping.  Termination therefore holds exactly when the walk reaches an
empty page or a seen identifier before its token disappears. -/
theorem c5_walk_stop_characterization {α : Type} [DecidableEq α]
    (feed : Nat → Except Unit (Response α)) (update : α → Bool)
    (dbOrig db delivered : List α) (reqIdx fuel : Nat) :
    (∀ t : String, feed reqIdx = .ok ⟨[], some t⟩ →
      fetchAux feed update dbOrig (fuel + 1) db delivered reqIdx =
        .ok db delivered (reqIdx + 1)) ∧
    (∀ (items : List α) (t : String), feed reqIdx = .ok ⟨items, some t⟩ →
      (∀ i ∈ items, update i = true) → (∃ i ∈ items, is_fetched db i = true) →
      fetchAux feed update dbOrig (fuel + 1) db delivered reqIdx =
        .ok (db ++ newOf db items) (delivered ++ newOf db items) (reqIdx + 1)) ∧
    (∀ (items : List α) (t : String), feed reqIdx = .ok ⟨items, some t⟩ →
      items ≠ [] → (∀ i ∈ items, update i = true) →
      (∀ i ∈ items, is_fetched db i = false) →
      fetchAux feed update dbOrig (fuel + 1) db delivered reqIdx =
        fetchAux feed update dbOrig fuel (db ++ items) (delivered ++ items) (reqIdx + 1)) ∧
    (∀ items : List α, feed reqIdx = .ok ⟨items, none⟩ →
      fetchAux feed update dbOrig (fuel + 1) db delivered reqIdx =
        .err .keyError dbOrig delivered (reqIdx + 1)) := by
  refine ⟨?_, ?_, ?_, ?_⟩
  · intro t hfeed
    exact fetchAux_empty_stop feed update dbOrig db delivered reqIdx fuel t hfeed
  · intro items t hfeed hupd hseen
    exact fetchAux_seen_stop feed update dbOrig db delivered reqIdx fuel items t hfeed hupd hseen
  · intro items t hfeed hne hupd hnew
    exact fetchAux_clean_step feed update dbOrig db delivered reqIdx fuel items t hfeed hne hupd hnew
  · intro items hfeed
    exact fetchAux_keyError feed update dbOrig db delivered reqIdx fuel items hfeed

/-- C5 witness: the empty-page stop conjunct at a drained feed whose
responses do carry tokens — one request, zero deliveries, store unchanged. -/
theorem c5_walk_stop_characterization_witness :
    fetchAux feedEmptyTok updAll ([] : List Nat) 3 [] [] 0 = .ok [] [] 1 :=
  (c5_walk_stop_characterization feedEmptyTok updAll [] [] [] 0 2).1 "t" rfl

/-- C6, counterexample.  The claim says identifiers delivered on earlier,
fully-completed pages of the cycle stay recorded when a later page request
fails.  On a feed whose first page `[0]` completes (item 0 delivered) and
whose second request raises, `fetch` propagates the transport error — but
its final store is `[]`: the single `with sqlite3.connect(...)` transaction
spanning the whole cycle is rolled back (the only commit is after the
loop), so 0 from the completed first page is NOT persisted. -/
theorem c6_counterexample :
    fetch feedThenFail updAll ([] : List Nat) 5 = .err .transport [] [0] 2 := by
  decide

/-- C6, amended: on a transport error the cycle aborts with the error
propagating out of `fetch`, and the whole cycle's transaction rolls back —
the store is exactly as it was on entry, so no identifier from any page of
the aborted cycle (completed pages included) is persisted; records from
prior cycles, being part of the entry store, remain. -/
theorem c6_transport_error_rolls_back_cycle {α : Type} [DecidableEq α]
    (feed : Nat → Except Unit (Response α)) (update : α → Bool) (db : List α)
    (fuel : Nat) (db' d : List α) (r : Nat)
    (h : fetch feed update db fuel = .err .transport db' d r) :
    db' = db :=
  fetchAux_err_db feed update db fuel db [] 0 .transport db' d r h

/-- C6 witness: the amended theorem applied to the one-good-page-then-fail
feed. -/
theorem c6_transport_error_rolls_back_cycle_witness : ([] : List Nat) = [] :=
  c6_transport_error_rolls_back_cycle feedThenFail updAll [] 5 [] [0] 2 (by decide)

/-- C7, counterexample.  The claim says `start(interval)` while running is
a no-op.  But `YTSCMonitor.start` (monitor.py lines 141-149)
unconditionally constructs a fresh `__AutoFetchTimer` and starts it: a
second call produces a second, independent started chain (both with
`_should_continue = True` and one pending tick), and changes the monitor
state rather than leaving it alone. -/
theorem c7_counterexample :
    monitorStart (monitorStart schedInit) ≠ monitorStart schedInit ∧
    (monitorStart (monitorStart schedInit)).timers =
      [⟨true, false, 1, 0⟩, ⟨true, false, 1, 0⟩] := by
  decide

/-- C7, amended: only the inner timer's own `start()` is a no-op once that
timer is already continuing; `YTSCMonitor.start` is not — every call
creates and starts one additional timer chain, leaving any previous chain
running. -/
theorem c7_monitor_start_always_adds_timer (s : MonitorSched) (t : TimerState)
    (h : t.shouldContinue = true) :
    timerStart t = t ∧ (monitorStart s).timers.length = s.timers.length + 1 := by
  constructor
  · simp [timerStart, h]
  · simp [monitorStart]

/-- C7 witness: the inner-timer no-op at an already-started timer, and the
monitor-level chain count growing from an idle monitor. -/
theorem c7_monitor_start_always_adds_timer_witness :
    timerStart startedTimer = startedTimer ∧
    (monitorStart schedInit).timers.length = schedInit.timers.length + 1 :=
  c7_monitor_start_always_adds_timer schedInit startedTimer (by decide)

/-- C8: identifiers are durably recorded only for items whose handler call
returned successfully.  A normally-returning cycle commits exactly the
successfully delivered identifiers appended to the entry store (so every
newly persisted identifier was handed to the handler, and the handler
returned normally on it); a cycle that aborts with any exception persists
nothing (rollback). -/
theorem c8_recorded_only_if_handled {α : Type} [DecidableEq α]
    (feed : Nat → Except Unit (Response α)) (update : α → Bool) (db : List α)
    (fuel : Nat) :
    (∀ (db' d : List α) (r : Nat), fetch feed update db fuel = .ok db' d r →
      db' = db ++ d ∧ ∀ i ∈ d, update i = true) ∧
    (∀ (e : FetchErr α) (db' d : List α) (r : Nat),
      fetch feed update db fuel = .err e db' d r → db' = db) := by
  constructor
  · intro db' d r h
    obtain ⟨newIds, h1, h2, h3⟩ := fetchAux_ok_append feed update db fuel db [] 0 db' d r h
    rw [List.nil_append] at h2
    subst h2
    exact ⟨h1, h3⟩
  · intro e db' d r h
    exact fetchAux_err_db feed update db fuel db [] 0 e db' d r h

/-- C8 witness: on the mixed page `[0, 1, 2, 3]` over store `[2]`, the
committed store is the entry store plus exactly the delivered ids. -/
theorem c8_recorded_only_if_handled_witness :
    ([2, 0, 1, 3] : List Nat) = [2] ++ [0, 1, 3] :=
  ((c8_recorded_only_if_handled feedPage0123 updAll [2] 5).1 [2, 0, 1, 3] [0, 1, 3] 1
    (by decide)).1

/-- C9, counterexample.  The claim says a second `fetch` after a completed
one, with no remote items beyond those already recorded, invokes the
handler zero times.  On a feed whose single page is `[0, 0]` (the same
identifier twice), the first `fetch` completes, delivering and recording
`0` twice; the feed still returns only the recorded identifier `0`, yet the
second `fetch` delivers it twice more: `count(*) == 1` fails on the
duplicate record, so `_is_fetched` reports the recorded identifier as
unseen. -/
theorem c9_counterexample :
    fetch feedDup updAll ([] : List Nat) 5 = .ok [0, 0] [0, 0] 2 ∧
    fetch feedDup updAll ([0, 0] : List Nat) 5 = .ok [0, 0, 0, 0] [0, 0] 2 := by
  decide

/-- C9, amended: if every identifier on the feed's first page is recorded
exactly once in the store (as happens when no page ever repeated an
identifier), a `fetch` invokes the handler zero times, leaves the store
unchanged, and returns after one request. -/
theorem c9_no_redelivery_when_recorded_once {α : Type} [DecidableEq α]
    (feed : Nat → Except Unit (Response α)) (update : α → Bool) (db : List α)
    (fuel : Nat) (items : List α) (t : String)
    (hfeed : feed 0 = .ok ⟨items, some t⟩)
    (hrec : ∀ i ∈ items, is_fetched db i = true) :
    fetch feed update db (fuel + 1) = .ok db [] 1 := by
  cases items with
  | nil =>
    simpa [fetch] using fetchAux_empty_stop feed update db db [] 0 fuel t hfeed
  | cons a rest =>
    have hproc := processItems_all_seen update db (a :: rest) hrec false
    simp [fetch, fetchAux, hfeed, hproc]

/-- C9 witness: a drained feed (single page `[5]`) over a store recording
`5` exactly once yields zero handler invocations. -/
theorem c9_no_redelivery_when_recorded_once_witness :
    fetch feedPage5 updAll ([5] : List Nat) 5 = .ok [5] [] 1 :=
  c9_no_redelivery_when_recorded_once feedPage5 updAll [5] 4 [5] "t" rfl (by decide)

/-- C10: constructing a monitor with the default `init = True` runs
`self.fetch()` (monitor.py line 74) before `self.__update` (line 77) and
`self.__progress_db` (line 80) are assigned; `fetch` immediately reads
`self.__progress_db` (line 102), which does not exist on the object, so the
constructor raises AttributeError instead of completing — for every feed,
store path, update function and fuel. -/
theorem c10_init_true_constructor_raises {α : Type} [DecidableEq α]
    (feed : Nat → Except Unit (Response α)) (progress_db : List α)
    (update_function : Option (α → Bool)) (fuel : Nat) :
    monitorInit feed progress_db update_function true fuel = .error .attributeError :=
  rfl

end Claims
